import Mathlib

/-!
Shallow embedding of the plant simulation engine of `src/models/plant.py`
(together with the shape of its caller `src/models/game.py`).

Modelling conventions:
* Python integers are `Int`; the `size` float is modelled exactly over `Rat`
  (no claim below depends on floating-point rounding).
* In-place mutation of the `Plant` object is explicit state passing.
* A Python exception is an `Except` error value that carries the plant state
  at the moment of the raise: Python mutates `self` in place, so a raise
  after a mutation leaves that mutation visible to the caller.
* Each `random.randint(lo, hi)` consumes one value of an ambient stream
  `rng : Nat → Nat` and reduces it into `[lo, hi]`; for `lo ≤ hi` every
  value of `[lo, hi]` is produced by some stream value, so quantifying over
  the stream quantifies over every outcome of the draws.
* The species table `json/plant_species.json` and the text table
  `json/plant_texts.json` are data files that are not under `src/`; the
  engine reads them as opaque lookup data, so they are parameters here
  (`SpeciesData`, `Texts`), with exactly the fields the code reads.
-/

namespace Planticity

/-- Life-cycle statuses, `plant.py` lines 14-20 (`SEED` .. `DEAD`); the
spec names `PLANT` GROWING and `YIELD` YIELDED. -/
inductive Status
  | seed
  | planted
  | plant
  | mature
  | yielded
  | dead
deriving DecidableEq, Repr

/-- `ACTIONS['WAIT']`, `plant.py` line 24. -/
def ACTIONS_WAIT : String := "wait"

/-- `ACTIONS['PLANT_SEED']`, `plant.py` line 25. -/
def ACTIONS_PLANT_SEED : String := "plant seed"

/-- `ACTIONS['WATER']`, `plant.py` line 26. -/
def ACTIONS_WATER : String := "water"

/-- `ACTIONS['FUNGICIDE']`, `plant.py` line 27. -/
def ACTIONS_FUNGICIDE : String := "fungicide"

/-- `ACTIONS['FUMIGATE']`, `plant.py` line 28. -/
def ACTIONS_FUMIGATE : String := "fumigate"

/-- `ACTIONS['FERTILIZE']`, `plant.py` line 29. -/
def ACTIONS_FERTILIZE : String := "fertilize"

/-- `STATUS_ACTIONS`, `plant.py` lines 33-60.  The Python dictionary has no
entry for `DEAD`, hence the `Option`: looking the status up for a dead
plant raises `KeyError`. -/
def STATUS_ACTIONS : Status → Option (List String)
  | .seed => some [ACTIONS_PLANT_SEED, ACTIONS_FUNGICIDE, ACTIONS_FUMIGATE, ACTIONS_FERTILIZE]
  | .planted => some [ACTIONS_WAIT, ACTIONS_WATER, ACTIONS_FERTILIZE]
  | .plant => some [ACTIONS_WAIT, ACTIONS_WATER, ACTIONS_FUNGICIDE, ACTIONS_FUMIGATE, ACTIONS_FERTILIZE]
  | .mature => some [ACTIONS_WAIT, ACTIONS_WATER, ACTIONS_FUNGICIDE, ACTIONS_FUMIGATE, ACTIONS_FERTILIZE]
  | .yielded => some []
  | .dead => none

/-- Modelled from the spec: the stage-specific part of the species record of
`json/plant_species.json` (not under `src/`), with the fields the engine
reads: `ideal_fertilizer`, `fungi_chance`, `plague_chance`, `flowers_day`. -/
structure StatusData where
  ideal_fertilizer : Int
  fungi_chance : Int
  plague_chance : Int
  flowers_day : Int

/-- Modelled from the spec: one species record of `json/plant_species.json`
(not under `src/`), §6 of the spec: day thresholds `germination`,
`maturity`, `yield`, the reals `growth_rate` and `adult_size`,
`ideal_moisture`, and the per-status records. -/
structure SpeciesData where
  germination : Int
  maturity : Int
  yieldDay : Int
  growth_rate : Rat
  adult_size : Rat
  ideal_moisture : Int
  statusData : Status → StatusData

/-- Modelled from the spec: the text-template table of
`json/plant_texts.json` (not under `src/`); each `%`-format template is a
function of its substituted values. -/
structure Texts where
  germinated : String
  statusText : Status → String
  plant_size : Rat → String
  conditions_fungi : String
  conditions_plague : String
  fertilized_flowers : Int → String → String
  moisture : String → String
  effect_days : String → Int → String → String
  fertilization_lack : String
  fertilization_toxic : String
  fertilization_ok : String

/-- The mutable fields of the `Plant` ndb model, `plant.py` lines 63-83,
with the ndb defaults. -/
structure Plant where
  name : String
  common_name : String
  age : Int := 0
  size : Rat := 0
  status : Status := .seed
  stress : Int := 0
  moisture : Int := 0
  flowers : Int := 0
  look : String := ""
  fertilizer : Int := 0
  fungicide : Int := 0
  fumigation : Int := 0
  fungi : Bool := false
  plague : Bool := false
  dead : Bool := false
deriving DecidableEq, Repr

/-- The Python exception kinds the engine raises: `NotImplementedError` is
the spec's `InvalidAction`, `ValueError` the spec's `InvalidState`, and
`KeyError` the dictionary-lookup failure. -/
inductive Err
  | notImplementedError (msg : String)
  | valueError (msg : String)
  | keyError (msg : String)
deriving DecidableEq, Repr

/-- Result of a fallible engine call: an error carries the plant state at
the moment of the raise (Python mutates in place). -/
abbrev PRes (α : Type) := Except (Err × Plant) α

/-- Python `random.randint(lo, hi)` (both ends inclusive): one draw of the
ambient stream reduced into `[lo, hi]`. -/
def randint (lo hi : Int) (r : Nat) : Int := lo + (r : Int) % (hi - lo + 1)

/-- `_get_fertilizer_diff`, `plant.py` lines 358-360. -/
def get_fertilizer_diff (data : SpeciesData) (p : Plant) : Int :=
  p.fertilizer - (data.statusData p.status).ideal_fertilizer

/-- `_get_moisture_diff`, `plant.py` lines 362-363. -/
def get_moisture_diff (data : SpeciesData) (p : Plant) : Int :=
  p.moisture - data.ideal_moisture

/-- `_add_stress`, `plant.py` lines 365-367 (the `assert amount >= 0` is a
debug check; the only call site passes 10). -/
def add_stress (amount : Int) (p : Plant) : Plant :=
  { p with stress := min (p.stress + amount) 100 }

/-- `_consume_water`, `plant.py` lines 205-208. -/
def consume_water (p : Plant) (rng : Nat → Nat) (k : Nat) : Plant × Nat :=
  let lost_water := randint 10 20 (rng k)
  ({ p with moisture := max (p.moisture - lost_water) 0 }, k + 1)

/-- Python `round(x, 1)` on the exact rational model (half-rounding detail
of floats is irrelevant to every claim below). -/
def roundTo1 (q : Rat) : Rat := ((round (q * 10) : Int) : Rat) / 10

/-- `_grow`, `plant.py` lines 210-225. -/
def grow (data : SpeciesData) (p : Plant) : Plant :=
  let day_growth : Rat := (1 / 100 : Rat) * ((100 : Rat) - (p.stress : Rat)) * data.growth_rate
  let fertilizer_diff : Int := |get_fertilizer_diff data p|
  let day_growth : Rat :=
    if fertilizer_diff < 10 then
      ((33 : Rat) / 1000) * ((10 : Rat) - (fertilizer_diff : Rat)) * data.growth_rate
    else day_growth
  { p with size := roundTo1 (p.size + day_growth) }

/-- Python `int()` truncates toward zero. -/
def pyTrunc (q : Rat) : Int := if 0 ≤ q then ⌊q⌋ else -⌊-q⌋

/-- `_blossom`, `plant.py` lines 227-253. -/
def blossom (data : SpeciesData) (p : Plant) (rng : Nat → Nat) (k : Nat) : Plant × Nat :=
  let fertilizer_diff : Rat := ((|get_fertilizer_diff data p| : Int) : Rat)
  let fertilizer_diff : Rat :=
    if fertilizer_diff < 20 then fertilizer_diff * (5 / 100 : Rat) else (12 / 10 : Rat)
  let fertile_factor : Rat := (12 / 10 : Rat) - fertilizer_diff
  let growth_factor : Rat := p.size / data.adult_size
  let stress_factor : Rat := 1 - (1 / 100 : Rat) * (p.stress : Rat)
  let random_factor : Rat := (1 / 100 : Rat) * ((randint 90 110 (rng k) : Int) : Rat)
  let flower_factor : Rat := fertile_factor * growth_factor * stress_factor * random_factor
  let daily_flowers := (data.statusData p.status).flowers_day
  let fertile_flowers : Rat := flower_factor * (daily_flowers : Rat)
  ({ p with flowers := p.flowers + pyTrunc fertile_flowers }, k + 1)

/-- `_roll_fungi`, `plant.py` lines 255-264. -/
def roll_fungi (data : SpeciesData) (p : Plant) (rng : Nat → Nat) (k : Nat) : Plant × Nat :=
  if ¬ p.fungi ∧ p.fungicide = 0 then
    let fungi_chance := (data.statusData p.status).fungi_chance
    let dice := randint 0 100 (rng k)
    ({ p with fungi := if fungi_chance > dice then true else p.fungi }, k + 1)
  else (p, k)

/-- `_roll_plague`, `plant.py` lines 266-275. -/
def roll_plague (data : SpeciesData) (p : Plant) (rng : Nat → Nat) (k : Nat) : Plant × Nat :=
  if ¬ p.plague ∧ p.fumigation = 0 then
    let plague_chance := (data.statusData p.status).plague_chance
    let dice := randint 0 100 (rng k)
    ({ p with plague := if plague_chance > dice then true else p.plague }, k + 1)
  else (p, k)

/-- `_calc_plant_stress`, `plant.py` lines 277-294. -/
def calc_plant_stress (data : SpeciesData) (p : Plant) : Plant :=
  let moisture_diff := |get_moisture_diff data p|
  let stress := p.stress + (moisture_diff - 30)
  let stress := if p.fungi || p.plague then stress + 25 else stress
  let fertilizer_diff := |get_fertilizer_diff data p|
  let stress := if fertilizer_diff > 20 then stress + (fertilizer_diff - 20) else stress
  let stress := min stress 100
  let stress := max stress 0
  { p with stress := stress }

/-- `_plant_seed`, `plant.py` lines 298-301. -/
def plant_seed (p : Plant) : PRes Plant :=
  if p.status ≠ Status.seed then
    .error (.valueError "You have already planted your seed", p)
  else
    .ok { p with status := Status.planted }

/-- `_germinate`, `plant.py` lines 303-308: the raise happens before any
mutation; on success the status becomes `PLANT` and the moisture deviation
is added to the stress (with no cap). -/
def germinate (data : SpeciesData) (p : Plant) : PRes Plant :=
  if ¬ (p.status = Status.planted) then
    .error (.valueError "Error! To germinate, status should be planted", p)
  else
    .ok { p with status := Status.plant,
                 stress := p.stress + |p.moisture - data.ideal_moisture| }

/-- `_mature`, `plant.py` lines 310-314. -/
def mature (p : Plant) : PRes Plant :=
  if ¬ (p.status = Status.plant) then
    .error (.valueError "Error! To mature and start flowering, status should be plant", p)
  else
    .ok { p with status := Status.mature }

/-- `_yield`, `plant.py` lines 316-321. -/
def yieldStep (p : Plant) : PRes Plant :=
  if ¬ (p.status = Status.mature) then
    .error (.valueError "Error! To yield, the status should be mature", p)
  else
    .ok { p with status := Status.yielded, dead := true }

/-- `_kill`, `plant.py` lines 323-325. -/
def kill (p : Plant) : Plant :=
  { p with status := Status.dead, dead := true }

/-- `_water`, `plant.py` lines 329-333. -/
def water (p : Plant) (rng : Nat → Nat) (k : Nat) : Plant × Nat :=
  let retained_water := randint 30 70 (rng k)
  ({ p with moisture := min (p.moisture + retained_water) 100 }, k + 1)

/-- `_fungicide`, `plant.py` lines 335-341. -/
def fungicide (p : Plant) : Plant :=
  add_stress 10 { p with fungi := false, fungicide := 5 }

/-- `_fumigate`, `plant.py` lines 343-349. -/
def fumigate (p : Plant) : Plant :=
  add_stress 10 { p with plague := false, fumigation := 5 }

/-- `_fertilize`, `plant.py` lines 351-354. -/
def fertilize (p : Plant) : Plant :=
  { p with fertilizer := min 100 (p.fertilizer + 10) }

/-- `_evolve`, `plant.py` lines 196-203. -/
def evolve (data : SpeciesData) (p : Plant) : PRes Plant :=
  if p.age = data.germination then germinate data p
  else if p.age = data.maturity then mature p
  else if p.age = data.yieldDay then yieldStep p
  else .ok p

/-- `_get_moisture_text`, `plant.py` lines 425-437 (the initial index `'0'`
of the source is dead code: every path reassigns it). -/
def get_moisture_text (texts : Texts) (p : Plant) : String :=
  let moisture_index :=
    if p.moisture = 0 then "1"
    else if p.moisture < 25 then "2"
    else if p.moisture < 50 then "3"
    else if p.moisture < 75 then "4"
    else "5"
  texts.moisture moisture_index

/-- `_get_effect_text`, `plant.py` lines 439-441. -/
def get_effect_text (texts : Texts) (text : String) (num : Int) : String :=
  texts.effect_days text num (if num > 1 then "s" else "")

/-- `_update_look`, `plant.py` lines 369-423: recomputes the `look` string
of the current state; mutates nothing else. -/
def update_look (texts : Texts) (data : SpeciesData) (p : Plant) : Plant :=
  if p.status = Status.yielded then
    { p with look := "Game completed! Final yield: " ++ toString p.flowers }
  else if p.status = Status.dead then
    { p with look := "The plant is dead... Be more careful the next time!" }
  else
    let looks : List String := ["Day " ++ toString p.age]
    let looks := if p.age = data.germination then looks ++ [texts.germinated] else looks
    let looks := looks ++ [texts.statusText p.status]
    let looks :=
      if p.status = Status.plant ∨ p.status = Status.mature then
        let looks := looks ++ [texts.plant_size p.size]
        let looks := if p.fungi then looks ++ [texts.conditions_fungi] else looks
        if p.plague then looks ++ [texts.conditions_plague] else looks
      else looks
    let looks :=
      if p.status = Status.mature then
        looks ++ [texts.fertilized_flowers p.flowers (if p.flowers > 1 then "s" else "")]
      else looks
    let looks := looks ++ [get_moisture_text texts p]
    let looks :=
      if p.fungicide > 0 then looks ++ [get_effect_text texts "fungicide" p.fungicide]
      else looks
    let looks :=
      if p.fumigation > 0 then looks ++ [get_effect_text texts "fumigation" p.fumigation]
      else looks
    let looks :=
      if p.status = Status.plant ∨ p.status = Status.mature then
        let fertilizer_diff := get_fertilizer_diff data p
        if fertilizer_diff < -20 then looks ++ [texts.fertilization_lack]
        else if fertilizer_diff > 20 then looks ++ [texts.fertilization_toxic]
        else if fertilizer_diff > -10 ∧ fertilizer_diff < 10 then looks ++ [texts.fertilization_ok]
        else looks
      else looks
    let looks := looks ++ ["Moisture: " ++ toString p.moisture ++ "%"]
    let looks := looks ++ ["Fertilizer: " ++ toString p.fertilizer ++ "%"]
    let looks :=
      if ¬ (p.status = Status.seed ∨ p.status = Status.planted) then
        looks ++ ["Stress: " ++ toString p.stress ++ "%"]
      else looks
    { p with look := String.intercalate ". " looks }

/-- Step 1 of `_end_day`, `plant.py` lines 164-168: when not a seed, add 1
to the age and decrement the fungicide, fumigation and fertilizer values
by 1 each, with a floor of 0. -/
def end_day_step1 (p : Plant) : Plant :=
  if p.status ≠ Status.seed then
    { p with age := p.age + 1,
             fungicide := p.fungicide - (if p.fungicide > 0 then 1 else 0),
             fumigation := p.fumigation - (if p.fumigation > 0 then 1 else 0),
             fertilizer := p.fertilizer - (if p.fertilizer > 0 then 1 else 0) }
  else p

/-- The raise-free tail of `_end_day` after the stage evolution
(`plant.py` lines 173-189): moisture decay, growth while `PLANT`,
flowering while `MATURE`, and — while `PLANT` or `MATURE` — the infection
rolls and the stress recalculation. -/
def end_day_post (data : SpeciesData) (p2 : Plant) (rng : Nat → Nat) (k : Nat) :
    Plant × Nat :=
  let p3k := consume_water p2 rng k
  let p4 := if p3k.1.status = Status.plant then grow data p3k.1 else p3k.1
  let p5k := if p4.status = Status.mature then blossom data p4 rng p3k.2 else (p4, p3k.2)
  if p5k.1.status = Status.plant ∨ p5k.1.status = Status.mature then
    let p6k := roll_fungi data p5k.1 rng p5k.2
    let p7k := roll_plague data p6k.1 rng p6k.2
    (calc_plant_stress data p7k.1, p7k.2)
  else (p5k.1, p5k.2)

/-- `_end_day` up to and including the stress recalculation (`plant.py`
lines 162-189): counters, evolution, then the raise-free tail, before the
death check. -/
def end_day_pre (data : SpeciesData) (p : Plant) (rng : Nat → Nat) (k : Nat) :
    PRes (Plant × Nat) :=
  match evolve data (end_day_step1 p) with
  | .error e => .error e
  | .ok p2 => .ok (end_day_post data p2 rng k)

/-- `_end_day`, `plant.py` lines 148-194: the whole day advance, the death
check of lines 191-192 and the final `_update_look`. -/
def end_day (texts : Texts) (data : SpeciesData) (p : Plant) (rng : Nat → Nat) (k : Nat) :
    PRes (Plant × Nat) :=
  match end_day_pre data p rng k with
  | .error e => .error e
  | .ok (q, k1) =>
    let q := if q.stress > 99 then kill q else q
    .ok (update_look texts data q, k1)

/-- `Plant.interact`, `plant.py` lines 110-146: validate the action against
`STATUS_ACTIONS`, apply its effect, then run `_end_day`. -/
def interact (texts : Texts) (data : SpeciesData) (p : Plant) (action : String)
    (rng : Nat → Nat) (k : Nat) : PRes (Plant × Nat) :=
  match STATUS_ACTIONS p.status with
  | none => .error (.keyError "dead", p)
  | some possible_actions =>
    if possible_actions.isEmpty then
      .error (.notImplementedError "Status not recognized.", p)
    else if ¬ possible_actions.contains action then
      .error (.notImplementedError ("Action " ++ action ++ " not recognized!"), p)
    else
      let step : PRes (Plant × Nat) :=
        if action = ACTIONS_WAIT then .ok (p, k)
        else if action = ACTIONS_PLANT_SEED then
          match plant_seed p with
          | .error e => .error e
          | .ok q => .ok (q, k)
        else if action = ACTIONS_WATER then .ok (water p rng k)
        else if action = ACTIONS_FUNGICIDE then .ok (fungicide p, k)
        else if action = ACTIONS_FUMIGATE then .ok (fumigate p, k)
        else if action = ACTIONS_FERTILIZE then .ok (fertilize p, k)
        else .ok (p, k)
      match step with
      | .error e => .error e
      | .ok (q, k1) => end_day texts data q rng k1

/-- The value `Plant.interact` hands back to its caller: the method body of
`plant.py` lines 110-146 has no `return` statement, so a successful call
returns Python's `None` alongside the mutated state. -/
def interact_call (texts : Texts) (data : SpeciesData) (p : Plant) (action : String)
    (rng : Nat → Nat) (k : Nat) : PRes ((Plant × Nat) × Option String) :=
  match interact texts data p action rng k with
  | .error e => .error e
  | .ok pk => .ok (pk, none)

/-- `Plant.new_plant`, `plant.py` lines 89-103: a fresh plant with the ndb
defaults, an initial seed look, then `_update_look`. -/
def new_plant (texts : Texts) (data : SpeciesData) (name common_name : String) : Plant :=
  update_look texts data
    { name := name, common_name := common_name,
      look := "It's a " ++ common_name ++ " seed" }

/-- The plant states reachable from a fresh plant through successful
`interact` calls, over every action and every outcome of the draws. -/
inductive Reachable (texts : Texts) (data : SpeciesData) : Plant → Prop
  | init (name common_name : String) :
      Reachable texts data (new_plant texts data name common_name)
  | step {p p' : Plant} (hp : Reachable texts data p) (action : String)
      (rng : Nat → Nat) (k k' : Nat)
      (h : interact texts data p action rng k = .ok (p', k')) :
      Reachable texts data p'

/-- A sample text table for the concrete runs below (the engine treats the
templates as opaque). -/
def texts0 : Texts where
  germinated := "The seed has germinated"
  statusText := fun _ => "status text"
  plant_size := fun _ => "size text"
  conditions_fungi := "fungi text"
  conditions_plague := "plague text"
  fertilized_flowers := fun _ _ => "flowers text"
  moisture := fun i => "moisture " ++ i
  effect_days := fun t _ _ => "effect " ++ t
  fertilization_lack := "fertilizer lack"
  fertilization_toxic := "fertilizer toxic"
  fertilization_ok := "fertilizer ok"

/-- A sample species record for the concrete runs below: germination on day
3, maturity on day 10, harvest on day 20. -/
def data0 : SpeciesData where
  germination := 3
  maturity := 10
  yieldDay := 20
  growth_rate := 1
  adult_size := 10
  ideal_moisture := 60
  statusData := fun _ =>
    { ideal_fertilizer := 30, fungi_chance := 20, plague_chance := 20, flowers_day := 4 }

/-- A fixed draw stream for the concrete runs. -/
def rng0 : Nat → Nat := fun _ => 0

/-- Status of the plant of a successful call. -/
def statusOf (x : PRes (Plant × Nat)) : Option Status :=
  match x with
  | .ok (p, _) => some p.status
  | .error _ => none

/-- Age of the plant of a successful call. -/
def ageOf (x : PRes (Plant × Nat)) : Option Int :=
  match x with
  | .ok (p, _) => some p.age
  | .error _ => none

/-- The plant state carried by a raised exception. -/
def errPlant (x : PRes (Plant × Nat)) : Option Plant :=
  match x with
  | .error (_, q) => some q
  | .ok _ => none

/-- Whether a call raised `NotImplementedError` (the spec's `InvalidAction`). -/
def isInvalidAction (x : PRes (Plant × Nat)) : Bool :=
  match x with
  | .error (.notImplementedError _, _) => true
  | _ => false

/-- Whether a call raised `ValueError` (the spec's `InvalidState`). -/
def isInvalidState (x : PRes (Plant × Nat)) : Bool :=
  match x with
  | .error (.valueError _, _) => true
  | _ => false

/-- A concrete run: a fresh plant receiving `fungicide` over and over
(allowed while the status is `SEED`), each application adding 10 stress. -/
def fungiSpam : Nat → PRes (Plant × Nat)
  | 0 => .ok (new_plant texts0 data0 "Pisum Sativum" "pea", 0)
  | n + 1 =>
    match fungiSpam n with
    | .error e => .error e
    | .ok (p, k) => interact texts0 data0 p ACTIONS_FUNGICIDE rng0 k

/-- The bounds invariant of the spec: moisture, fertilizer and stress all
within `[0, 100]`. -/
def InvMFS (p : Plant) : Prop :=
  0 ≤ p.moisture ∧ p.moisture ≤ 100 ∧
  0 ≤ p.fertilizer ∧ p.fertilizer ≤ 100 ∧
  0 ≤ p.stress ∧ p.stress ≤ 100

instance (p : Plant) : Decidable (InvMFS p) := by unfold InvMFS; infer_instance

/-- Position of a status in the ordered progression
SEED < PLANTED < GROWING < MATURE < YIELDED, with DEAD set apart last. -/
def statusIdx : Status → Nat
  | .seed => 0
  | .planted => 1
  | .plant => 2
  | .mature => 3
  | .yielded => 4
  | .dead => 5

/-- Stress of the plant of a successful call. -/
def stressOf (x : PRes (Plant × Nat)) : Option Int :=
  match x with
  | .ok (p, _) => some p.stress
  | .error _ => none

/-- Dead flag of the plant of a successful call. -/
def deadOf (x : PRes (Plant × Nat)) : Option Bool :=
  match x with
  | .ok (p, _) => some p.dead
  | .error _ => none

/-- Stress of the plant of a successful transition helper. -/
def stressOfE (x : PRes Plant) : Option Int :=
  match x with
  | .ok p => some p.stress
  | .error _ => none

/-- The value returned by a successful `interact` call. -/
def retOf (x : PRes ((Plant × Nat) × Option String)) : Option (Option String) :=
  match x with
  | .ok (_, r) => some r
  | .error _ => none

/-- Concrete fixture: a dead plant. -/
def pDead : Plant := { name := "Pisum Sativum", common_name := "pea", status := Status.dead }

/-- Concrete fixture: a plant that already yielded. -/
def pYld : Plant := { name := "Pisum Sativum", common_name := "pea", status := Status.yielded }

/-- Concrete fixture: a planted seed one day short of the maturity threshold
of `data0` — the day advance will hit `maturity` while the status is still
`PLANTED`. -/
def pC3 : Plant :=
  { name := "Pisum Sativum", common_name := "pea", status := Status.planted,
    age := 9, fertilizer := 50 }

/-- Concrete fixture: a planted seed with fertilizer in the soil. -/
def pC5 : Plant :=
  { name := "Pisum Sativum", common_name := "pea", status := Status.planted,
    fertilizer := 10 }

/-- Concrete fixture: a growing plant already at maximal stress. -/
def pC7 : Plant :=
  { name := "Pisum Sativum", common_name := "pea", status := Status.plant,
    stress := 100, age := 1 }

/-- Concrete fixture: a stressed planted seed far from ideal moisture. -/
def pC8 : Plant :=
  { name := "Pisum Sativum", common_name := "pea", status := Status.planted,
    stress := 80, moisture := 0 }

/-- Concrete fixture: a fresh seed (ndb defaults). -/
def pW : Plant := { name := "Pisum Sativum", common_name := "pea" }

lemma randint_bounds (lo hi : Int) (r : Nat) (h : lo ≤ hi) :
    lo ≤ randint lo hi r ∧ randint lo hi r ≤ hi := by
  unfold randint
  have hne : hi - lo + 1 ≠ 0 := by omega
  have h1 : 0 ≤ (r : Int) % (hi - lo + 1) := Int.emod_nonneg _ hne
  have h2 : (r : Int) % (hi - lo + 1) < hi - lo + 1 := Int.emod_lt_of_pos _ (by omega)
  omega

@[simp] lemma consume_water_snd (p : Plant) (rng : Nat → Nat) (k : Nat) :
    (consume_water p rng k).2 = k + 1 := rfl

@[simp] lemma consume_water_age (p : Plant) (rng : Nat → Nat) (k : Nat) :
    (consume_water p rng k).1.age = p.age := rfl

@[simp] lemma consume_water_status (p : Plant) (rng : Nat → Nat) (k : Nat) :
    (consume_water p rng k).1.status = p.status := rfl

@[simp] lemma consume_water_stress (p : Plant) (rng : Nat → Nat) (k : Nat) :
    (consume_water p rng k).1.stress = p.stress := rfl

@[simp] lemma consume_water_fertilizer (p : Plant) (rng : Nat → Nat) (k : Nat) :
    (consume_water p rng k).1.fertilizer = p.fertilizer := rfl

@[simp] lemma consume_water_fungicide (p : Plant) (rng : Nat → Nat) (k : Nat) :
    (consume_water p rng k).1.fungicide = p.fungicide := rfl

@[simp] lemma consume_water_fumigation (p : Plant) (rng : Nat → Nat) (k : Nat) :
    (consume_water p rng k).1.fumigation = p.fumigation := rfl

@[simp] lemma consume_water_moisture (p : Plant) (rng : Nat → Nat) (k : Nat) :
    (consume_water p rng k).1.moisture = max (p.moisture - randint 10 20 (rng k)) 0 := rfl

lemma consume_water_moisture_bounds (p : Plant) (rng : Nat → Nat) (k : Nat)
    (h0 : 0 ≤ p.moisture) (h1 : p.moisture ≤ 100) :
    0 ≤ (consume_water p rng k).1.moisture ∧ (consume_water p rng k).1.moisture ≤ 100 := by
  have := randint_bounds 10 20 (rng k) (by omega)
  simp only [consume_water_moisture]
  omega

@[simp] lemma grow_age (d : SpeciesData) (p : Plant) : (grow d p).age = p.age := rfl

@[simp] lemma grow_status (d : SpeciesData) (p : Plant) : (grow d p).status = p.status := rfl

@[simp] lemma grow_stress (d : SpeciesData) (p : Plant) : (grow d p).stress = p.stress := rfl

@[simp] lemma grow_moisture (d : SpeciesData) (p : Plant) : (grow d p).moisture = p.moisture := rfl

@[simp] lemma grow_fertilizer (d : SpeciesData) (p : Plant) :
    (grow d p).fertilizer = p.fertilizer := rfl

@[simp] lemma grow_fungicide (d : SpeciesData) (p : Plant) :
    (grow d p).fungicide = p.fungicide := rfl

@[simp] lemma grow_fumigation (d : SpeciesData) (p : Plant) :
    (grow d p).fumigation = p.fumigation := rfl

@[simp] lemma blossom_age (d : SpeciesData) (p : Plant) (rng : Nat → Nat) (k : Nat) :
    (blossom d p rng k).1.age = p.age := rfl

@[simp] lemma blossom_status (d : SpeciesData) (p : Plant) (rng : Nat → Nat) (k : Nat) :
    (blossom d p rng k).1.status = p.status := rfl

@[simp] lemma blossom_stress (d : SpeciesData) (p : Plant) (rng : Nat → Nat) (k : Nat) :
    (blossom d p rng k).1.stress = p.stress := rfl

@[simp] lemma blossom_moisture (d : SpeciesData) (p : Plant) (rng : Nat → Nat) (k : Nat) :
    (blossom d p rng k).1.moisture = p.moisture := rfl

@[simp] lemma blossom_fertilizer (d : SpeciesData) (p : Plant) (rng : Nat → Nat) (k : Nat) :
    (blossom d p rng k).1.fertilizer = p.fertilizer := rfl

@[simp] lemma blossom_fungicide (d : SpeciesData) (p : Plant) (rng : Nat → Nat) (k : Nat) :
    (blossom d p rng k).1.fungicide = p.fungicide := rfl

@[simp] lemma blossom_fumigation (d : SpeciesData) (p : Plant) (rng : Nat → Nat) (k : Nat) :
    (blossom d p rng k).1.fumigation = p.fumigation := rfl

@[simp] lemma roll_fungi_age (d : SpeciesData) (p : Plant) (rng : Nat → Nat) (k : Nat) :
    (roll_fungi d p rng k).1.age = p.age := by
  unfold roll_fungi; split <;> rfl

@[simp] lemma roll_fungi_status (d : SpeciesData) (p : Plant) (rng : Nat → Nat) (k : Nat) :
    (roll_fungi d p rng k).1.status = p.status := by
  unfold roll_fungi; split <;> rfl

@[simp] lemma roll_fungi_stress (d : SpeciesData) (p : Plant) (rng : Nat → Nat) (k : Nat) :
    (roll_fungi d p rng k).1.stress = p.stress := by
  unfold roll_fungi; split <;> rfl

@[simp] lemma roll_fungi_moisture (d : SpeciesData) (p : Plant) (rng : Nat → Nat) (k : Nat) :
    (roll_fungi d p rng k).1.moisture = p.moisture := by
  unfold roll_fungi; split <;> rfl

@[simp] lemma roll_fungi_fertilizer (d : SpeciesData) (p : Plant) (rng : Nat → Nat) (k : Nat) :
    (roll_fungi d p rng k).1.fertilizer = p.fertilizer := by
  unfold roll_fungi; split <;> rfl

@[simp] lemma roll_fungi_fungicide (d : SpeciesData) (p : Plant) (rng : Nat → Nat) (k : Nat) :
    (roll_fungi d p rng k).1.fungicide = p.fungicide := by
  unfold roll_fungi; split <;> rfl

@[simp] lemma roll_fungi_fumigation (d : SpeciesData) (p : Plant) (rng : Nat → Nat) (k : Nat) :
    (roll_fungi d p rng k).1.fumigation = p.fumigation := by
  unfold roll_fungi; split <;> rfl

@[simp] lemma roll_plague_age (d : SpeciesData) (p : Plant) (rng : Nat → Nat) (k : Nat) :
    (roll_plague d p rng k).1.age = p.age := by
  unfold roll_plague; split <;> rfl

@[simp] lemma roll_plague_status (d : SpeciesData) (p : Plant) (rng : Nat → Nat) (k : Nat) :
    (roll_plague d p rng k).1.status = p.status := by
  unfold roll_plague; split <;> rfl

@[simp] lemma roll_plague_stress (d : SpeciesData) (p : Plant) (rng : Nat → Nat) (k : Nat) :
    (roll_plague d p rng k).1.stress = p.stress := by
  unfold roll_plague; split <;> rfl

@[simp] lemma roll_plague_moisture (d : SpeciesData) (p : Plant) (rng : Nat → Nat) (k : Nat) :
    (roll_plague d p rng k).1.moisture = p.moisture := by
  unfold roll_plague; split <;> rfl

@[simp] lemma roll_plague_fertilizer (d : SpeciesData) (p : Plant) (rng : Nat → Nat) (k : Nat) :
    (roll_plague d p rng k).1.fertilizer = p.fertilizer := by
  unfold roll_plague; split <;> rfl

@[simp] lemma roll_plague_fungicide (d : SpeciesData) (p : Plant) (rng : Nat → Nat) (k : Nat) :
    (roll_plague d p rng k).1.fungicide = p.fungicide := by
  unfold roll_plague; split <;> rfl

@[simp] lemma roll_plague_fumigation (d : SpeciesData) (p : Plant) (rng : Nat → Nat) (k : Nat) :
    (roll_plague d p rng k).1.fumigation = p.fumigation := by
  unfold roll_plague; split <;> rfl

@[simp] lemma calc_plant_stress_age (d : SpeciesData) (p : Plant) :
    (calc_plant_stress d p).age = p.age := rfl

@[simp] lemma calc_plant_stress_status (d : SpeciesData) (p : Plant) :
    (calc_plant_stress d p).status = p.status := rfl

@[simp] lemma calc_plant_stress_moisture (d : SpeciesData) (p : Plant) :
    (calc_plant_stress d p).moisture = p.moisture := rfl

@[simp] lemma calc_plant_stress_fertilizer (d : SpeciesData) (p : Plant) :
    (calc_plant_stress d p).fertilizer = p.fertilizer := rfl

@[simp] lemma calc_plant_stress_fungicide (d : SpeciesData) (p : Plant) :
    (calc_plant_stress d p).fungicide = p.fungicide := rfl

@[simp] lemma calc_plant_stress_fumigation (d : SpeciesData) (p : Plant) :
    (calc_plant_stress d p).fumigation = p.fumigation := rfl

lemma calc_plant_stress_stress_bounds (d : SpeciesData) (p : Plant) :
    0 ≤ (calc_plant_stress d p).stress ∧ (calc_plant_stress d p).stress ≤ 100 := by
  unfold calc_plant_stress
  dsimp only
  omega

@[simp] lemma kill_status (p : Plant) : (kill p).status = Status.dead := rfl

@[simp] lemma kill_dead (p : Plant) : (kill p).dead = true := rfl

@[simp] lemma kill_age (p : Plant) : (kill p).age = p.age := rfl

@[simp] lemma kill_stress (p : Plant) : (kill p).stress = p.stress := rfl

@[simp] lemma kill_moisture (p : Plant) : (kill p).moisture = p.moisture := rfl

@[simp] lemma kill_fertilizer (p : Plant) : (kill p).fertilizer = p.fertilizer := rfl

@[simp] lemma kill_fungicide (p : Plant) : (kill p).fungicide = p.fungicide := rfl

@[simp] lemma kill_fumigation (p : Plant) : (kill p).fumigation = p.fumigation := rfl

@[simp] lemma update_look_age (t : Texts) (d : SpeciesData) (p : Plant) :
    (update_look t d p).age = p.age := by
  unfold update_look; split
  · rfl
  · split <;> rfl

@[simp] lemma update_look_status (t : Texts) (d : SpeciesData) (p : Plant) :
    (update_look t d p).status = p.status := by
  unfold update_look; split
  · rfl
  · split <;> rfl

@[simp] lemma update_look_dead (t : Texts) (d : SpeciesData) (p : Plant) :
    (update_look t d p).dead = p.dead := by
  unfold update_look; split
  · rfl
  · split <;> rfl

@[simp] lemma update_look_stress (t : Texts) (d : SpeciesData) (p : Plant) :
    (update_look t d p).stress = p.stress := by
  unfold update_look; split
  · rfl
  · split <;> rfl

@[simp] lemma update_look_moisture (t : Texts) (d : SpeciesData) (p : Plant) :
    (update_look t d p).moisture = p.moisture := by
  unfold update_look; split
  · rfl
  · split <;> rfl

@[simp] lemma update_look_fertilizer (t : Texts) (d : SpeciesData) (p : Plant) :
    (update_look t d p).fertilizer = p.fertilizer := by
  unfold update_look; split
  · rfl
  · split <;> rfl

@[simp] lemma update_look_fungicide (t : Texts) (d : SpeciesData) (p : Plant) :
    (update_look t d p).fungicide = p.fungicide := by
  unfold update_look; split
  · rfl
  · split <;> rfl

@[simp] lemma update_look_fumigation (t : Texts) (d : SpeciesData) (p : Plant) :
    (update_look t d p).fumigation = p.fumigation := by
  unfold update_look; split
  · rfl
  · split <;> rfl

lemma evolve_ok_cases {d : SpeciesData} {p q : Plant} (h : evolve d p = .ok q) :
    q = p
  ∨ (p.status = Status.planted ∧
      q = { p with status := Status.plant, stress := p.stress + |p.moisture - d.ideal_moisture| })
  ∨ (p.status = Status.plant ∧ q = { p with status := Status.mature })
  ∨ (p.status = Status.mature ∧ q = { p with status := Status.yielded, dead := true }) := by
  unfold evolve at h
  by_cases h1 : p.age = d.germination
  · rw [if_pos h1] at h
    unfold germinate at h
    by_cases h2 : p.status = Status.planted
    · rw [if_neg (by simp [h2])] at h
      simp only [Except.ok.injEq] at h
      exact Or.inr (Or.inl ⟨h2, h.symm⟩)
    · rw [if_pos (by simp [h2])] at h
      simp at h
  · rw [if_neg h1] at h
    by_cases h3 : p.age = d.maturity
    · rw [if_pos h3] at h
      unfold mature at h
      by_cases h4 : p.status = Status.plant
      · rw [if_neg (by simp [h4])] at h
        simp only [Except.ok.injEq] at h
        exact Or.inr (Or.inr (Or.inl ⟨h4, h.symm⟩))
      · rw [if_pos (by simp [h4])] at h
        simp at h
    · rw [if_neg h3] at h
      by_cases h5 : p.age = d.yieldDay
      · rw [if_pos h5] at h
        unfold yieldStep at h
        by_cases h6 : p.status = Status.mature
        · rw [if_neg (by simp [h6])] at h
          simp only [Except.ok.injEq] at h
          exact Or.inr (Or.inr (Or.inr ⟨h6, h.symm⟩))
        · rw [if_pos (by simp [h6])] at h
          simp at h
      · rw [if_neg h5] at h
        simp only [Except.ok.injEq] at h
        exact Or.inl h.symm

lemma evolve_ok_age {d : SpeciesData} {p q : Plant} (h : evolve d p = .ok q) :
    q.age = p.age := by
  rcases evolve_ok_cases h with rfl | ⟨_, rfl⟩ | ⟨_, rfl⟩ | ⟨_, rfl⟩ <;> rfl

lemma evolve_ok_moisture {d : SpeciesData} {p q : Plant} (h : evolve d p = .ok q) :
    q.moisture = p.moisture := by
  rcases evolve_ok_cases h with rfl | ⟨_, rfl⟩ | ⟨_, rfl⟩ | ⟨_, rfl⟩ <;> rfl

lemma evolve_ok_fertilizer {d : SpeciesData} {p q : Plant} (h : evolve d p = .ok q) :
    q.fertilizer = p.fertilizer := by
  rcases evolve_ok_cases h with rfl | ⟨_, rfl⟩ | ⟨_, rfl⟩ | ⟨_, rfl⟩ <;> rfl

lemma evolve_ok_fungicide {d : SpeciesData} {p q : Plant} (h : evolve d p = .ok q) :
    q.fungicide = p.fungicide := by
  rcases evolve_ok_cases h with rfl | ⟨_, rfl⟩ | ⟨_, rfl⟩ | ⟨_, rfl⟩ <;> rfl

lemma evolve_ok_fumigation {d : SpeciesData} {p q : Plant} (h : evolve d p = .ok q) :
    q.fumigation = p.fumigation := by
  rcases evolve_ok_cases h with rfl | ⟨_, rfl⟩ | ⟨_, rfl⟩ | ⟨_, rfl⟩ <;> rfl

lemma evolve_ok_status_cases {d : SpeciesData} {p q : Plant} (h : evolve d p = .ok q) :
    q.status = p.status
  ∨ (p.status = Status.planted ∧ q.status = Status.plant)
  ∨ (p.status = Status.plant ∧ q.status = Status.mature)
  ∨ (p.status = Status.mature ∧ q.status = Status.yielded) := by
  rcases evolve_ok_cases h with rfl | ⟨h1, rfl⟩ | ⟨h1, rfl⟩ | ⟨h1, rfl⟩
  · exact Or.inl rfl
  · exact Or.inr (Or.inl ⟨h1, rfl⟩)
  · exact Or.inr (Or.inr (Or.inl ⟨h1, rfl⟩))
  · exact Or.inr (Or.inr (Or.inr ⟨h1, rfl⟩))

lemma evolve_ok_stress {d : SpeciesData} {p q : Plant} (h : evolve d p = .ok q) :
    q.stress = p.stress ∨ q.status = Status.plant := by
  rcases evolve_ok_cases h with rfl | ⟨_, rfl⟩ | ⟨_, rfl⟩ | ⟨_, rfl⟩
  · exact Or.inl rfl
  · exact Or.inr rfl
  · exact Or.inl rfl
  · exact Or.inl rfl

@[simp] lemma end_day_step1_status (p : Plant) : (end_day_step1 p).status = p.status := by
  unfold end_day_step1; split <;> rfl

@[simp] lemma end_day_step1_stress (p : Plant) : (end_day_step1 p).stress = p.stress := by
  unfold end_day_step1; split <;> rfl

@[simp] lemma end_day_step1_moisture (p : Plant) : (end_day_step1 p).moisture = p.moisture := by
  unfold end_day_step1; split <;> rfl

lemma end_day_step1_age (p : Plant) :
    (end_day_step1 p).age = if p.status = Status.seed then p.age else p.age + 1 := by
  unfold end_day_step1; split <;> simp_all

lemma end_day_step1_fungicide (p : Plant) :
    (end_day_step1 p).fungicide = p.fungicide
  ∨ (end_day_step1 p).fungicide = p.fungicide - (if p.fungicide > 0 then 1 else 0) := by
  unfold end_day_step1; split
  · exact Or.inr rfl
  · exact Or.inl rfl

lemma end_day_step1_fumigation (p : Plant) :
    (end_day_step1 p).fumigation = p.fumigation
  ∨ (end_day_step1 p).fumigation = p.fumigation - (if p.fumigation > 0 then 1 else 0) := by
  unfold end_day_step1; split
  · exact Or.inr rfl
  · exact Or.inl rfl

lemma end_day_step1_fertilizer (p : Plant) :
    (end_day_step1 p).fertilizer = p.fertilizer
  ∨ (end_day_step1 p).fertilizer = p.fertilizer - (if p.fertilizer > 0 then 1 else 0) := by
  unfold end_day_step1; split
  · exact Or.inr rfl
  · exact Or.inl rfl

lemma end_day_step1_fertilizer_bounds (p : Plant)
    (h : 0 ≤ p.fertilizer ∧ p.fertilizer ≤ 100) :
    0 ≤ (end_day_step1 p).fertilizer ∧ (end_day_step1 p).fertilizer ≤ 100 := by
  rcases end_day_step1_fertilizer p with h1 | h1 <;> rw [h1]
  · omega
  · split_ifs <;> omega

@[simp] lemma end_day_post_age (d : SpeciesData) (p2 : Plant) (rng : Nat → Nat) (k : Nat) :
    (end_day_post d p2 rng k).1.age = p2.age := by
  simp only [end_day_post]; split_ifs <;> simp

@[simp] lemma end_day_post_status (d : SpeciesData) (p2 : Plant) (rng : Nat → Nat) (k : Nat) :
    (end_day_post d p2 rng k).1.status = p2.status := by
  simp only [end_day_post]; split_ifs <;> simp

@[simp] lemma end_day_post_fungicide (d : SpeciesData) (p2 : Plant) (rng : Nat → Nat) (k : Nat) :
    (end_day_post d p2 rng k).1.fungicide = p2.fungicide := by
  simp only [end_day_post]; split_ifs <;> simp

@[simp] lemma end_day_post_fumigation (d : SpeciesData) (p2 : Plant) (rng : Nat → Nat) (k : Nat) :
    (end_day_post d p2 rng k).1.fumigation = p2.fumigation := by
  simp only [end_day_post]; split_ifs <;> simp

@[simp] lemma end_day_post_fertilizer (d : SpeciesData) (p2 : Plant) (rng : Nat → Nat) (k : Nat) :
    (end_day_post d p2 rng k).1.fertilizer = p2.fertilizer := by
  simp only [end_day_post]; split_ifs <;> simp

@[simp] lemma end_day_post_moisture (d : SpeciesData) (p2 : Plant) (rng : Nat → Nat) (k : Nat) :
    (end_day_post d p2 rng k).1.moisture = max (p2.moisture - randint 10 20 (rng k)) 0 := by
  simp only [end_day_post]; split_ifs <;> simp

lemma end_day_post_stress_pm (d : SpeciesData) (p2 : Plant) (rng : Nat → Nat) (k : Nat)
    (hpm : p2.status = Status.plant ∨ p2.status = Status.mature) :
    0 ≤ (end_day_post d p2 rng k).1.stress ∧ (end_day_post d p2 rng k).1.stress ≤ 100 := by
  simp only [end_day_post]
  split_ifs with h1 h2 h3 <;>
    first
      | exact calc_plant_stress_stress_bounds _ _
      | simp_all

lemma end_day_post_stress_other (d : SpeciesData) (p2 : Plant) (rng : Nat → Nat) (k : Nat)
    (hpm : ¬ (p2.status = Status.plant ∨ p2.status = Status.mature)) :
    (end_day_post d p2 rng k).1.stress = p2.stress := by
  simp only [end_day_post]
  split_ifs with h1 h2 h3 <;> simp_all

lemma end_day_pre_ok_elim {d : SpeciesData} {p q : Plant} {rng : Nat → Nat} {k k1 : Nat}
    (h : end_day_pre d p rng k = .ok (q, k1)) :
    ∃ p2, evolve d (end_day_step1 p) = .ok p2 ∧ (q, k1) = end_day_post d p2 rng k := by
  unfold end_day_pre at h
  split at h
  · simp at h
  · next p2 heq => exact ⟨p2, heq, by simpa using h.symm⟩

lemma end_day_ok_elim {t : Texts} {d : SpeciesData} {p r : Plant} {rng : Nat → Nat}
    {k k2 : Nat} (h : end_day t d p rng k = .ok (r, k2)) :
    ∃ q k1, end_day_pre d p rng k = .ok (q, k1) ∧
      r = update_look t d (if q.stress > 99 then kill q else q) ∧ k2 = k1 := by
  unfold end_day at h
  split at h
  · simp at h
  · next q k1 heq =>
    simp only [Except.ok.injEq, Prod.mk.injEq] at h
    exact ⟨q, k1, heq, h.1.symm, h.2.symm⟩

lemma end_day_ok_master {t : Texts} {d : SpeciesData} {p r : Plant} {rng : Nat → Nat}
    {k k2 : Nat} (h : end_day t d p rng k = .ok (r, k2)) :
    r.age = (end_day_step1 p).age ∧
    r.fungicide = (end_day_step1 p).fungicide ∧
    r.fumigation = (end_day_step1 p).fumigation ∧
    r.fertilizer = (end_day_step1 p).fertilizer ∧
    (0 ≤ p.moisture ∧ p.moisture ≤ 100 → 0 ≤ r.moisture ∧ r.moisture ≤ 100) ∧
    (r.status = Status.dead
      ∨ r.status = p.status
      ∨ (p.status = Status.planted ∧ r.status = Status.plant)
      ∨ (p.status = Status.plant ∧ r.status = Status.mature)
      ∨ (p.status = Status.mature ∧ r.status = Status.yielded)) ∧
    (0 ≤ p.stress ∧ p.stress ≤ 100 → 0 ≤ r.stress ∧ r.stress ≤ 100) := by
  obtain ⟨q, k1, hpre, hr, hk⟩ := end_day_ok_elim h
  obtain ⟨p2, hev, hpost⟩ := end_day_pre_ok_elim hpre
  have hq : q = (end_day_post d p2 rng k).1 := congrArg Prod.fst hpost
  have hra : r.age = q.age := by rw [hr]; split_ifs <;> simp
  have hrfg : r.fungicide = q.fungicide := by rw [hr]; split_ifs <;> simp
  have hrfm : r.fumigation = q.fumigation := by rw [hr]; split_ifs <;> simp
  have hrfe : r.fertilizer = q.fertilizer := by rw [hr]; split_ifs <;> simp
  have hrm : r.moisture = q.moisture := by rw [hr]; split_ifs <;> simp
  have hrst : r.stress = q.stress := by rw [hr]; split_ifs <;> simp
  have hrs : r.status = Status.dead ∨ r.status = q.status := by
    rw [hr]; split_ifs <;> simp
  refine ⟨?_, ?_, ?_, ?_, ?_, ?_, ?_⟩
  · rw [hra, hq, end_day_post_age, evolve_ok_age hev]
  · rw [hrfg, hq, end_day_post_fungicide, evolve_ok_fungicide hev]
  · rw [hrfm, hq, end_day_post_fumigation, evolve_ok_fumigation hev]
  · rw [hrfe, hq, end_day_post_fertilizer, evolve_ok_fertilizer hev]
  · intro hbm
    have h2 : p2.moisture = p.moisture := by
      rw [evolve_ok_moisture hev, end_day_step1_moisture]
    have := randint_bounds 10 20 (rng k) (by omega)
    rw [hrm, hq, end_day_post_moisture, h2]
    omega
  · rcases hrs with h1 | h1
    · exact Or.inl h1
    · have h2 : q.status = p2.status := by rw [hq, end_day_post_status]
      have h3 := evolve_ok_status_cases hev
      rw [end_day_step1_status] at h3
      rw [h1, h2]
      tauto
  · intro hbs
    rcases hrs with h1 | h1
    all_goals {
      rw [hrst, hq]
      by_cases hpm : p2.status = Status.plant ∨ p2.status = Status.mature
      · exact end_day_post_stress_pm d p2 rng k hpm
      · rw [end_day_post_stress_other d p2 rng k hpm]
        rcases evolve_ok_stress hev with h4 | h4
        · rw [h4, end_day_step1_stress]; exact hbs
        · exact absurd (Or.inl h4) hpm
    }

lemma plant_seed_of_seed {p : Plant} (hs : p.status = Status.seed) :
    plant_seed p = .ok { p with status := Status.planted } := by
  unfold plant_seed; rw [if_neg]; simp [hs]

lemma plant_seed_of_not_seed {p : Plant} (hs : p.status ≠ Status.seed) :
    plant_seed p = .error (.valueError "You have already planted your seed", p) := by
  unfold plant_seed; rw [if_pos]; simpa using hs

lemma plant_seed_cases (p : Plant) :
    plant_seed p = .ok { p with status := Status.planted }
  ∨ plant_seed p = .error (.valueError "You have already planted your seed", p) := by
  unfold plant_seed
  split_ifs
  · exact Or.inr rfl
  · exact Or.inl rfl

lemma InvMFS_water {p : Plant} (rng : Nat → Nat) (k : Nat) (hi : InvMFS p) :
    InvMFS (water p rng k).1 := by
  have := randint_bounds 30 70 (rng k) (by omega)
  unfold InvMFS water at *
  dsimp only at *
  omega

lemma InvMFS_fungicide {p : Plant} (hi : InvMFS p) : InvMFS (fungicide p) := by
  unfold InvMFS fungicide add_stress at *
  dsimp only at *
  omega

lemma InvMFS_fumigate {p : Plant} (hi : InvMFS p) : InvMFS (fumigate p) := by
  unfold InvMFS fumigate add_stress at *
  dsimp only at *
  omega

lemma InvMFS_fertilize {p : Plant} (hi : InvMFS p) : InvMFS (fertilize p) := by
  unfold InvMFS fertilize at *
  dsimp only at *
  omega

lemma interact_eq_err_none {t : Texts} {d : SpeciesData} {p : Plant} {a : String}
    {rng : Nat → Nat} {k : Nat} (hsa : STATUS_ACTIONS p.status = none) :
    interact t d p a rng k = .error (.keyError "dead", p) := by
  unfold interact; rw [hsa]

lemma interact_eq_err_empty {t : Texts} {d : SpeciesData} {p : Plant} {a : String}
    {rng : Nat → Nat} {k : Nat} (hsa : STATUS_ACTIONS p.status = some []) :
    interact t d p a rng k = .error (.notImplementedError "Status not recognized.", p) := by
  unfold interact; rw [hsa]; rfl

lemma interact_eq_err_not_contains {t : Texts} {d : SpeciesData} {p : Plant} {a : String}
    {rng : Nat → Nat} {k : Nat} {pa : List String}
    (hsa : STATUS_ACTIONS p.status = some pa) (hne : pa.isEmpty = false)
    (hcon : pa.contains a = false) :
    interact t d p a rng k =
      .error (.notImplementedError ("Action " ++ a ++ " not recognized!"), p) := by
  unfold interact
  rw [hsa]
  simp only [hne, hcon, Bool.false_eq_true, if_false, not_false_iff, if_true]

lemma interact_eq_dispatch {t : Texts} {d : SpeciesData} {p : Plant} {a : String}
    {rng : Nat → Nat} {k : Nat} (pa : List String)
    (hsa : STATUS_ACTIONS p.status = some pa) (hne : pa.isEmpty = false)
    (hcon : pa.contains a = true) :
    interact t d p a rng k =
      (match (if a = ACTIONS_WAIT then (Except.ok (p, k) : PRes (Plant × Nat))
        else if a = ACTIONS_PLANT_SEED then
          match plant_seed p with
          | .error e => .error e
          | .ok q => .ok (q, k)
        else if a = ACTIONS_WATER then .ok (water p rng k)
        else if a = ACTIONS_FUNGICIDE then .ok (fungicide p, k)
        else if a = ACTIONS_FUMIGATE then .ok (fumigate p, k)
        else if a = ACTIONS_FERTILIZE then .ok (fertilize p, k)
        else .ok (p, k)) with
      | .error e => .error e
      | .ok (q, k1) => end_day t d q rng k1) := by
  unfold interact
  rw [hsa]
  simp only [hne, hcon, Bool.false_eq_true, if_false, not_true, if_true]
  rfl

lemma InvMFS_set_status {p : Plant} (s : Status) (hi : InvMFS p) :
    InvMFS { p with status := s } := by
  unfold InvMFS at *; exact hi

lemma interact_ok_decomp {t : Texts} {d : SpeciesData} {p p' : Plant} {a : String}
    {rng : Nat → Nat} {k k' : Nat}
    (h : interact t d p a rng k = .ok (p', k')) :
    ∃ q kq, end_day t d q rng kq = .ok (p', k') ∧
      q.age = p.age ∧
      (q.status = p.status
        ∨ (p.status = Status.seed ∧ a = ACTIONS_PLANT_SEED ∧ q.status = Status.planted)) ∧
      (p.status = Status.seed ∧ a = ACTIONS_PLANT_SEED → q.status = Status.planted) ∧
      (InvMFS p → InvMFS q) ∧
      (q.fungicide = p.fungicide ∨ q.fungicide = 5) ∧
      (q.fumigation = p.fumigation ∨ q.fumigation = 5) ∧
      p.status ≠ Status.dead := by
  cases hsa : STATUS_ACTIONS p.status with
  | none => rw [interact_eq_err_none hsa] at h; simp at h
  | some pa =>
    have hnd : p.status ≠ Status.dead := by
      intro hd; rw [hd] at hsa; simp [STATUS_ACTIONS] at hsa
    by_cases hpa : pa = []
    · subst hpa; rw [interact_eq_err_empty hsa] at h; simp at h
    · have hne : pa.isEmpty = false := by
        cases pa with
        | nil => exact absurd rfl hpa
        | cons x xs => rfl
      by_cases hcon : pa.contains a = true
      · rw [interact_eq_dispatch pa hsa hne hcon] at h
        by_cases hW : a = ACTIONS_WAIT
        · rw [if_pos hW] at h
          exact ⟨p, k, h, rfl, Or.inl rfl,
            fun hc => absurd (hc.2.symm.trans hW) (by decide),
            fun hi => hi, Or.inl rfl, Or.inl rfl, hnd⟩
        · rw [if_neg hW] at h
          by_cases hPS : a = ACTIONS_PLANT_SEED
          · have hs : p.status = Status.seed := by
              cases hst : p.status
              case seed => rfl
              case dead => rw [hst] at hsa; simp [STATUS_ACTIONS] at hsa
              all_goals {
                rw [hst] at hsa
                simp only [STATUS_ACTIONS, Option.some.injEq] at hsa
                subst hsa
                rw [hPS] at hcon
                revert hcon
                decide
              }
            rw [if_pos hPS, plant_seed_of_seed hs] at h
            exact ⟨{ p with status := Status.planted }, k, h, rfl,
              Or.inr ⟨hs, hPS, rfl⟩, fun _ => rfl, InvMFS_set_status Status.planted,
              Or.inl rfl, Or.inl rfl, hnd⟩
          · rw [if_neg hPS] at h
            by_cases hWA : a = ACTIONS_WATER
            · rw [if_pos hWA] at h
              exact ⟨(water p rng k).1, (water p rng k).2, h, rfl, Or.inl rfl,
                fun hc => absurd hc.2 hPS,
                InvMFS_water rng k, Or.inl rfl, Or.inl rfl, hnd⟩
            · rw [if_neg hWA] at h
              by_cases hFG : a = ACTIONS_FUNGICIDE
              · rw [if_pos hFG] at h
                exact ⟨fungicide p, k, h, rfl, Or.inl rfl,
                  fun hc => absurd hc.2 hPS, InvMFS_fungicide,
                  Or.inr rfl, Or.inl rfl, hnd⟩
              · rw [if_neg hFG] at h
                by_cases hFM : a = ACTIONS_FUMIGATE
                · rw [if_pos hFM] at h
                  exact ⟨fumigate p, k, h, rfl, Or.inl rfl,
                    fun hc => absurd hc.2 hPS, InvMFS_fumigate,
                    Or.inl rfl, Or.inr rfl, hnd⟩
                · rw [if_neg hFM] at h
                  by_cases hFE : a = ACTIONS_FERTILIZE
                  · rw [if_pos hFE] at h
                    exact ⟨fertilize p, k, h, rfl, Or.inl rfl,
                      fun hc => absurd hc.2 hPS, InvMFS_fertilize,
                      Or.inl rfl, Or.inl rfl, hnd⟩
                  · rw [if_neg hFE] at h
                    exact ⟨p, k, h, rfl, Or.inl rfl,
                      fun hc => absurd hc.2 hPS, fun hi => hi,
                      Or.inl rfl, Or.inl rfl, hnd⟩
      · rw [interact_eq_err_not_contains hsa hne (by simpa using hcon)] at h
        simp at h

lemma end_day_of_pre_ok {t : Texts} {d : SpeciesData} {p q : Plant} {rng : Nat → Nat}
    {k k1 : Nat} (hpre : end_day_pre d p rng k = .ok (q, k1)) :
    end_day t d p rng k = .ok (update_look t d (if q.stress > 99 then kill q else q), k1) := by
  unfold end_day; rw [hpre]

lemma evolve_error_kind {d : SpeciesData} {p q : Plant} {err : Err}
    (h : evolve d p = .error (err, q)) : ∃ m, err = Err.valueError m := by
  unfold evolve germinate mature yieldStep at h
  split_ifs at h <;>
    simp only [Except.error.injEq, Prod.mk.injEq, reduceCtorEq] at h <;>
    exact ⟨_, h.1.symm⟩

lemma end_day_error_kind {t : Texts} {d : SpeciesData} {p q : Plant} {rng : Nat → Nat}
    {k : Nat} {err : Err} (h : end_day t d p rng k = .error (err, q)) :
    ∃ m, err = Err.valueError m := by
  unfold end_day at h
  split at h
  · next e heq =>
    unfold end_day_pre at heq
    split at heq
    · next e' hev =>
      simp only [Except.error.injEq] at heq
      subst heq
      simp only [Except.error.injEq] at h
      obtain ⟨e1, e2⟩ := e'
      simp only [Prod.mk.injEq] at h
      obtain ⟨m, hm⟩ := evolve_error_kind hev
      exact ⟨m, by rw [← h.1, hm]⟩
    · simp at heq
  · simp at h

/-- C1: for every reachable plant state — along every finite sequence of
successful `interact` calls from a fresh plant, for every outcome of the
random draws — the fields moisture, fertilizer and stress lie in
`[0, 100]` after every call. -/
theorem C1_bounds_invariant (t : Texts) (d : SpeciesData) (p : Plant)
    (h : Reachable t d p) :
    0 ≤ p.moisture ∧ p.moisture ≤ 100 ∧
    0 ≤ p.fertilizer ∧ p.fertilizer ≤ 100 ∧
    0 ≤ p.stress ∧ p.stress ≤ 100 := by
  induction h with
  | init name common_name => refine ⟨?_, ?_, ?_, ?_, ?_, ?_⟩ <;> norm_num [new_plant]
  | step hp action rng k k' hstep ih =>
    rename_i pa pb
    obtain ⟨q, kq, hend, hage, hst, hPSs, hinv, hfg, hfm, hnd⟩ := interact_ok_decomp hstep
    have hq : InvMFS q := hinv ih
    obtain ⟨hq1, hq2, hq3, hq4, hq5, hq6⟩ := hq
    obtain ⟨hm1, hm2, hm3, hm4, hm5, hm6, hm7⟩ := end_day_ok_master hend
    have hmo := hm5 ⟨hq1, hq2⟩
    have hfe := end_day_step1_fertilizer_bounds q ⟨hq3, hq4⟩
    have hstb := hm7 ⟨hq5, hq6⟩
    rw [hm4]
    exact ⟨hmo.1, hmo.2, hfe.1, hfe.2, hstb.1, hstb.2⟩

/-- C1 witness: a fresh plant is reachable and satisfies the bounds. -/
theorem C1_bounds_witness :
    0 ≤ (new_plant texts0 data0 "Pisum Sativum" "pea").moisture ∧
    (new_plant texts0 data0 "Pisum Sativum" "pea").moisture ≤ 100 ∧
    0 ≤ (new_plant texts0 data0 "Pisum Sativum" "pea").fertilizer ∧
    (new_plant texts0 data0 "Pisum Sativum" "pea").fertilizer ≤ 100 ∧
    0 ≤ (new_plant texts0 data0 "Pisum Sativum" "pea").stress ∧
    (new_plant texts0 data0 "Pisum Sativum" "pea").stress ≤ 100 :=
  C1_bounds_invariant texts0 data0 _ (Reachable.init "Pisum Sativum" "pea")

/-- C10: the protective counters always lie in `[0, 5]` on every reachable
state: they start at 0, only `fungicide`/`fumigate` set them (to exactly
5), and the day advance only decrements them by 1 with a floor of 0. -/
theorem C10_counters_invariant (t : Texts) (d : SpeciesData) (p : Plant)
    (h : Reachable t d p) :
    0 ≤ p.fungicide ∧ p.fungicide ≤ 5 ∧ 0 ≤ p.fumigation ∧ p.fumigation ≤ 5 := by
  induction h with
  | init name common_name => refine ⟨?_, ?_, ?_, ?_⟩ <;> norm_num [new_plant]
  | step hp action rng k k' hstep ih =>
    rename_i pa pb
    obtain ⟨q, kq, hend, hage, hst, hPSs, hinv, hfg, hfm, hnd⟩ := interact_ok_decomp hstep
    obtain ⟨hm1, hm2, hm3, hm4, hm5, hm6, hm7⟩ := end_day_ok_master hend
    have h1 := end_day_step1_fungicide q
    have h2 := end_day_step1_fumigation q
    obtain ⟨i1, i2, i3, i4⟩ := ih
    have hfgb : 0 ≤ pb.fungicide ∧ pb.fungicide ≤ 5 := by
      rw [hm2]
      rcases h1 with f | f <;> rw [f] <;> rcases hfg with e | e <;> rw [e] <;> omega
    have hfmb : 0 ≤ pb.fumigation ∧ pb.fumigation ≤ 5 := by
      rw [hm3]
      rcases h2 with f | f <;> rw [f] <;> rcases hfm with e | e <;> rw [e] <;> omega
    exact ⟨hfgb.1, hfgb.2, hfmb.1, hfmb.2⟩

/-- C10 witness: a fresh plant is reachable and its counters are in
bounds. -/
theorem C10_counters_witness :
    0 ≤ (new_plant texts0 data0 "Pisum Sativum" "pea").fungicide ∧
    (new_plant texts0 data0 "Pisum Sativum" "pea").fungicide ≤ 5 ∧
    0 ≤ (new_plant texts0 data0 "Pisum Sativum" "pea").fumigation ∧
    (new_plant texts0 data0 "Pisum Sativum" "pea").fumigation ≤ 5 :=
  C10_counters_invariant texts0 data0 _ (Reachable.init "Pisum Sativum" "pea")

/-- C9: the age is unchanged exactly by the interact calls whose pre-action
status is SEED and whose action leaves the status at SEED, and increments
by exactly 1 on every other successful call — the not-a-seed check of
day-advance step 1 reads the post-action status; in particular `plant
seed` on a fresh seed ends with status PLANTED and age 1 (when day 1 hits
no species threshold). -/
theorem C9_age_dynamics :
    (∀ (t : Texts) (d : SpeciesData) (p p' : Plant) (a : String) (rng : Nat → Nat)
        (k k' : Nat), interact t d p a rng k = .ok (p', k') →
      (p.status = Status.seed ∧ a ≠ ACTIONS_PLANT_SEED → p'.age = p.age) ∧
      (¬ (p.status = Status.seed ∧ a ≠ ACTIONS_PLANT_SEED) → p'.age = p.age + 1)) ∧
    (∀ (t : Texts) (d : SpeciesData) (n c : String) (rng : Nat → Nat) (k : Nat),
      d.germination ≠ 1 → d.maturity ≠ 1 → d.yieldDay ≠ 1 →
      statusOf (interact t d (new_plant t d n c) ACTIONS_PLANT_SEED rng k)
          = some Status.planted ∧
      ageOf (interact t d (new_plant t d n c) ACTIONS_PLANT_SEED rng k) = some 1) := by
  constructor
  · intro t d p p' a rng k k' h
    obtain ⟨q, kq, hend, hage, hst, hPSs, hinv, hfg, hfm, hnd⟩ := interact_ok_decomp h
    obtain ⟨hm1, hm2, hm3, hm4, hm5, hm6, hm7⟩ := end_day_ok_master hend
    rw [end_day_step1_age] at hm1
    constructor
    · rintro ⟨hseed, hne⟩
      rcases hst with h3 | ⟨_, haps, _⟩
      · rw [hm1, if_pos (h3.trans hseed), hage]
      · exact absurd haps hne
    · intro hcon
      by_cases hseed : p.status = Status.seed
      · have haps : a = ACTIONS_PLANT_SEED := by
          by_contra hn; exact hcon ⟨hseed, hn⟩
        have hqs : q.status = Status.planted := hPSs ⟨hseed, haps⟩
        rw [hm1, if_neg (by rw [hqs]; decide), hage]
      · rcases hst with h3 | ⟨h3, _, _⟩
        · rw [hm1, if_neg (by rw [h3]; exact hseed), hage]
        · exact absurd h3 hseed
  · intro t d n c rng k hg hmthr hy
    obtain ⟨f, hfdef⟩ : ∃ f, f = new_plant t d n c := ⟨_, rfl⟩
    rw [← hfdef]
    have hfs : f.status = Status.seed := by rw [hfdef]; simp [new_plant]
    have hfa : f.age = 0 := by rw [hfdef]; simp [new_plant]
    have hfstress : f.stress = 0 := by rw [hfdef]; simp [new_plant]
    obtain ⟨f1, hf1⟩ : ∃ x, x = ({ f with status := Status.planted } : Plant) := ⟨_, rfl⟩
    have hd1 : interact t d f ACTIONS_PLANT_SEED rng k = end_day t d f1 rng k := by
      rw [interact_eq_dispatch [ACTIONS_PLANT_SEED, ACTIONS_FUNGICIDE,
            ACTIONS_FUMIGATE, ACTIONS_FERTILIZE] (by rw [hfs]; rfl) rfl (by decide),
        if_neg (by decide), if_pos rfl, plant_seed_of_seed hfs, ← hf1]
    obtain ⟨p1, hp1⟩ : ∃ x, x = end_day_step1 f1 := ⟨_, rfl⟩
    have hp1s : p1.status = Status.planted := by
      rw [hp1, end_day_step1_status, hf1]
    have hp1a : p1.age = 1 := by
      rw [hp1, end_day_step1_age, if_neg (by rw [hf1]; simp), hf1]
      simp [hfa]
    have hev : evolve d p1 = .ok p1 := by
      unfold evolve
      rw [if_neg (by rw [hp1a]; exact fun hh => hg hh.symm),
          if_neg (by rw [hp1a]; exact fun hh => hmthr hh.symm),
          if_neg (by rw [hp1a]; exact fun hh => hy hh.symm)]
    have hpre : end_day_pre d f1 rng k
        = .ok ((end_day_post d p1 rng k).1, (end_day_post d p1 rng k).2) := by
      unfold end_day_pre
      rw [← hp1, hev]
    have hQs : (end_day_post d p1 rng k).1.status = Status.planted := by
      rw [end_day_post_status, hp1s]
    have hQa : (end_day_post d p1 rng k).1.age = 1 := by
      rw [end_day_post_age, hp1a]
    have hQstress : (end_day_post d p1 rng k).1.stress = 0 := by
      rw [end_day_post_stress_other d p1 rng k (by rw [hp1s]; decide)]
      rw [hp1, end_day_step1_stress, hf1]
      exact hfstress
    constructor
    · rw [hd1, end_day_of_pre_ok hpre, if_neg (by rw [hQstress]; decide)]
      simp [statusOf, hQs, hp1s]
    · rw [hd1, end_day_of_pre_ok hpre, if_neg (by rw [hQstress]; decide)]
      simp [ageOf, hQa, hp1a]

/-- C9 witness: the scenario at the sample species (germination 3, maturity
10, harvest 20): planting the fresh seed ends with status PLANTED and age
1. -/
theorem C9_age_witness :
    statusOf (interact texts0 data0 (new_plant texts0 data0 "Pisum Sativum" "pea")
        ACTIONS_PLANT_SEED rng0 0) = some Status.planted ∧
    ageOf (interact texts0 data0 (new_plant texts0 data0 "Pisum Sativum" "pea")
        ACTIONS_PLANT_SEED rng0 0) = some 1 :=
  C9_age_dynamics.2 texts0 data0 "Pisum Sativum" "pea" rng0 0
    (by decide) (by decide) (by decide)

/-- C6 counterexample: ten `fungicide` applications to a fresh seed (each
adding 10 stress) leave the status at SEED for nine calls and then the
death check fires — the tenth successful call moves SEED directly to DEAD,
so DEAD is reachable from a stage other than GROWING or MATURE. -/
theorem C6_dead_from_seed_counterexample :
    statusOf (fungiSpam 9) = some Status.seed ∧
    statusOf (fungiSpam 10) = some Status.dead := by
  constructor <;> rfl

/-- C6 amended: over every successful `interact` call the stage index in
SEED < PLANTED < GROWING < MATURE < YIELDED never decreases and no call
succeeds from DEAD; but the death check can move ANY live stage to DEAD
(not only GROWING/MATURE) whenever stress exceeds 99. -/
theorem C6_stage_monotone_amended (t : Texts) (d : SpeciesData) (p : Plant)
    (a : String) (rng : Nat → Nat) (k : Nat) (s : Status)
    (h : statusOf (interact t d p a rng k) = some s) :
    p.status ≠ Status.dead ∧ (s = Status.dead ∨ statusIdx p.status ≤ statusIdx s) := by
  cases hi : interact t d p a rng k with
  | error e => rw [hi] at h; simp [statusOf] at h
  | ok pk =>
    obtain ⟨p', k'⟩ := pk
    rw [hi] at h
    simp only [statusOf, Option.some.injEq] at h
    obtain ⟨q, kq, hend, hage, hst, hPSs, hinv, hfg, hfm, hnd⟩ := interact_ok_decomp hi
    obtain ⟨hm1, hm2, hm3, hm4, hm5, hm6, hm7⟩ := end_day_ok_master hend
    refine ⟨hnd, ?_⟩
    subst h
    rcases hm6 with h1 | h1 | ⟨h1, h2⟩ | ⟨h1, h2⟩ | ⟨h1, h2⟩ <;>
      rcases hst with h3 | ⟨h3, h4, h5⟩ <;>
      simp_all [statusIdx]

/-- C6 amended witness: one `fungicide` call on a fresh seed succeeds and
keeps the stage at SEED. -/
theorem C6_stage_monotone_witness :
    (new_plant texts0 data0 "Pisum Sativum" "pea").status ≠ Status.dead ∧
    (Status.seed = Status.dead ∨
      statusIdx (new_plant texts0 data0 "Pisum Sativum" "pea").status
        ≤ statusIdx Status.seed) :=
  C6_stage_monotone_amended texts0 data0 (new_plant texts0 data0 "Pisum Sativum" "pea")
    ACTIONS_FUNGICIDE rng0 0 Status.seed (by rfl)

/-- C7: whenever the stress right after the stress-recalculation part of
the day advance exceeds 99, the day advance ends in stage DEAD with the
dead flag set, overriding any stage transition computed earlier that
day. -/
theorem C7_overstress_kills (t : Texts) (d : SpeciesData) (p : Plant)
    (rng : Nat → Nat) (k : Nat) (s : Int)
    (h1 : stressOf (end_day_pre d p rng k) = some s) (h2 : s > 99) :
    statusOf (end_day t d p rng k) = some Status.dead ∧
    deadOf (end_day t d p rng k) = some true := by
  cases hpre : end_day_pre d p rng k with
  | error e => rw [hpre] at h1; simp [stressOf] at h1
  | ok qk =>
    obtain ⟨q, k1⟩ := qk
    rw [hpre] at h1
    simp only [stressOf, Option.some.injEq] at h1
    rw [end_day_of_pre_ok hpre, if_pos (by rw [h1]; exact h2)]
    constructor
    · simp [statusOf]
    · simp [deadOf]

/-- C7 witness: a growing plant at stress 100 (sample species, all-zero
draws) ends the day dead. -/
theorem C7_overstress_witness :
    statusOf (end_day texts0 data0 pC7 rng0 0) = some Status.dead ∧
    deadOf (end_day texts0 data0 pC7 rng0 0) = some true :=
  C7_overstress_kills texts0 data0 pC7 rng0 0 100 (by rfl) (by decide)

/-- C8 counterexample: `_germinate` does not cap the stress adjustment at
100 — germinating `pC8` (stress 80, moisture 0, ideal moisture 60) leaves
stress 140, not `min (80 + 60) 100`. -/
theorem C8_germination_cap_counterexample :
    stressOfE (germinate data0 pC8) = some 140 ∧
    stressOfE (germinate data0 pC8)
      ≠ some (min (pC8.stress + |pC8.moisture - data0.ideal_moisture|) 100) := by
  constructor <;> decide

/-- C8 amended: the PLANTED→GROWING germination adds
`|moisture − ideal_moisture|` to the stress with NO cap; the clamp into
`[0, 100]` only happens later in the same day advance, in the
stress-recalculation step, which runs because the status is now
GROWING. -/
theorem C8_germination_stress_amended :
    (∀ (d : SpeciesData) (p : Plant), p.status = Status.planted →
      germinate d p
        = .ok { p with
                status := Status.plant,
                stress := p.stress + (|p.moisture - d.ideal_moisture|) }) ∧
    (∀ (d : SpeciesData) (p2 : Plant) (rng : Nat → Nat) (k : Nat),
      p2.status = Status.plant →
      0 ≤ (end_day_post d p2 rng k).1.stress ∧
        (end_day_post d p2 rng k).1.stress ≤ 100) := by
  constructor
  · intro d p hs
    unfold germinate
    rw [if_neg (by simp [hs])]
  · intro d p2 rng k hs
    exact end_day_post_stress_pm d p2 rng k (Or.inl hs)

/-- C8 amended witness: the uncapped adjustment at `pC8` and the in-bounds
recalculated stress of a growing plant. -/
theorem C8_germination_stress_witness :
    germinate data0 pC8
      = .ok { pC8 with
              status := Status.plant,
              stress := pC8.stress + (|pC8.moisture - data0.ideal_moisture|) } ∧
    (0 ≤ (end_day_post data0 pC7 rng0 0).1.stress ∧
      (end_day_post data0 pC7 rng0 0).1.stress ≤ 100) :=
  ⟨C8_germination_stress_amended.1 data0 pC8 (by rfl),
   C8_germination_stress_amended.2 data0 pC7 rng0 0 (by rfl)⟩

/-- C5 counterexample: day-advance step 1 does decrement the fertilizer
percentage — on `pC5` (PLANTED, fertilizer 10) it drops to 9, so the
claim that this step leaves fertilizer unchanged fails. -/
theorem C5_step1_fertilizer_counterexample :
    (end_day_step1 pC5).fertilizer = 9 ∧ pC5.fertilizer = 10 ∧
    (end_day_step1 pC5).fertilizer ≠ pC5.fertilizer := by
  refine ⟨?_, ?_, ?_⟩ <;> decide

/-- C5 amended: when the status is not SEED, step 1 of the day advance adds
1 to the age and decrements all three of `fungicide`, `fumigation` AND the
`fertilizer` percentage, each by 1 floored at 0, leaving every other field
unchanged. -/
theorem C5_step1_decrements_amended :
    ∀ p : Plant, p.status ≠ Status.seed →
      0 ≤ p.fungicide → 0 ≤ p.fumigation → 0 ≤ p.fertilizer →
      (end_day_step1 p).age = p.age + 1 ∧
      (end_day_step1 p).fungicide = max (p.fungicide - 1) 0 ∧
      (end_day_step1 p).fumigation = max (p.fumigation - 1) 0 ∧
      (end_day_step1 p).fertilizer = max (p.fertilizer - 1) 0 ∧
      (end_day_step1 p).moisture = p.moisture ∧
      (end_day_step1 p).stress = p.stress ∧
      (end_day_step1 p).status = p.status ∧
      (end_day_step1 p).size = p.size ∧
      (end_day_step1 p).flowers = p.flowers ∧
      (end_day_step1 p).fungi = p.fungi ∧
      (end_day_step1 p).plague = p.plague ∧
      (end_day_step1 p).dead = p.dead ∧
      (end_day_step1 p).look = p.look := by
  intro p hs h1 h2 h3
  unfold end_day_step1
  rw [if_pos hs]
  refine ⟨rfl, ?_, ?_, ?_, rfl, rfl, rfl, rfl, rfl, rfl, rfl, rfl, rfl⟩ <;>
    (dsimp only; omega)

/-- C5 amended witness: the decrements at `pC5`. -/
theorem C5_step1_decrements_witness :
    (end_day_step1 pC5).fertilizer = max (pC5.fertilizer - 1) 0 ∧
    (end_day_step1 pC5).fungicide = max (pC5.fungicide - 1) 0 ∧
    (end_day_step1 pC5).age = pC5.age + 1 ∧
    (end_day_step1 pC5).moisture = pC5.moisture :=
  ⟨(C5_step1_decrements_amended pC5 (by decide) (by decide) (by decide) (by decide)).2.2.2.1,
   (C5_step1_decrements_amended pC5 (by decide) (by decide) (by decide) (by decide)).2.1,
   (C5_step1_decrements_amended pC5 (by decide) (by decide) (by decide) (by decide)).1,
   (C5_step1_decrements_amended pC5 (by decide) (by decide) (by decide) (by decide)).2.2.2.2.1⟩

/-- C2 counterexample: on a DEAD plant the `STATUS_ACTIONS` lookup raises
`KeyError`, not the `NotImplementedError` that stands for `InvalidAction`
(the dictionary has no DEAD key), so the claim fails at stage DEAD. -/
theorem C2_invalid_action_counterexample :
    interact texts0 data0 pDead ACTIONS_WAIT rng0 0 = .error (.keyError "dead", pDead) ∧
    isInvalidAction (interact texts0 data0 pDead ACTIONS_WAIT rng0 0) = false := by
  constructor <;> rfl

/-- C2 amended: for every stage present in `STATUS_ACTIONS` (all but DEAD),
an action outside the stage's allowed list makes `interact` raise
`NotImplementedError` (`InvalidAction`) with the plant unchanged — the
empty YIELDED list included; on DEAD the lookup itself fails with
`KeyError`, again with the plant unchanged. -/
theorem C2_invalid_action_amended :
    (∀ (t : Texts) (d : SpeciesData) (p : Plant) (a : String) (rng : Nat → Nat) (k : Nat)
        (pa : List String), STATUS_ACTIONS p.status = some pa → pa.contains a = false →
      interact t d p a rng k = .error (.notImplementedError
        (if pa.isEmpty then "Status not recognized."
         else "Action " ++ a ++ " not recognized!"), p)) ∧
    (∀ (t : Texts) (d : SpeciesData) (p : Plant) (a : String) (rng : Nat → Nat) (k : Nat),
      STATUS_ACTIONS p.status = none →
      interact t d p a rng k = .error (.keyError "dead", p)) := by
  constructor
  · intro t d p a rng k pa hsa hcon
    by_cases hpa : pa = []
    · subst hpa
      rw [interact_eq_err_empty hsa]
      rfl
    · have hne : pa.isEmpty = false := by
        cases pa with
        | nil => exact absurd rfl hpa
        | cons x xs => rfl
      rw [interact_eq_err_not_contains hsa hne hcon]
      simp [hne]
  · intro t d p a rng k hsa
    exact interact_eq_err_none hsa

/-- C2 amended witness: the YIELDED empty list and the DEAD lookup failure
at concrete plants. -/
theorem C2_invalid_action_witness :
    interact texts0 data0 pYld ACTIONS_WATER rng0 0
      = .error (.notImplementedError "Status not recognized.", pYld) ∧
    interact texts0 data0 pDead ACTIONS_FERTILIZE rng0 0
      = .error (.keyError "dead", pDead) :=
  ⟨C2_invalid_action_amended.1 texts0 data0 pYld ACTIONS_WATER rng0 0 [] rfl rfl,
   C2_invalid_action_amended.2 texts0 data0 pDead ACTIONS_FERTILIZE rng0 0 rfl⟩

/-- C3 counterexample: a `wait` on `pC3` (PLANTED, age 9, fertilizer 50)
fails with `ValueError` (`InvalidState`) — day 10 hits the maturity
threshold while the status is still PLANTED — and the carried plant state
shows the step-1 mutations (age 10, fertilizer 49): partial mutation is
observable after an `InvalidState` failure. -/
theorem C3_partial_mutation_counterexample :
    isInvalidState (interact texts0 data0 pC3 ACTIONS_WAIT rng0 0) = true ∧
    errPlant (interact texts0 data0 pC3 ACTIONS_WAIT rng0 0) ≠ some pC3 := by
  constructor <;> decide

/-- C3 amended: an `interact` call that fails with `NotImplementedError`
(`InvalidAction`) leaves the plant exactly as it was — the action is
validated before any mutation; only `ValueError` (`InvalidState`)
failures, raised mid-day-advance, can leave partial mutation behind. -/
theorem C3_invalid_action_unchanged_amended :
    ∀ (t : Texts) (d : SpeciesData) (p q : Plant) (a m : String) (rng : Nat → Nat) (k : Nat),
      interact t d p a rng k = .error (.notImplementedError m, q) → q = p := by
  intro t d p q a m rng k h
  cases hsa : STATUS_ACTIONS p.status with
  | none =>
    rw [interact_eq_err_none hsa] at h
    simp at h
  | some pa =>
    by_cases hpa : pa = []
    · subst hpa
      rw [interact_eq_err_empty hsa] at h
      simp only [Except.error.injEq, Prod.mk.injEq, Err.notImplementedError.injEq] at h
      exact h.2.symm
    · have hne : pa.isEmpty = false := by
        cases pa with
        | nil => exact absurd rfl hpa
        | cons x xs => rfl
      by_cases hcon : pa.contains a = true
      · rw [interact_eq_dispatch pa hsa hne hcon] at h
        split_ifs at h <;>
          first
            | (obtain ⟨m', hm'⟩ := end_day_error_kind h; simp at hm')
            | (rcases plant_seed_cases p with hps | hps <;> rw [hps] at h <;>
                first
                  | (obtain ⟨m', hm'⟩ := end_day_error_kind h; simp at hm')
                  | simp at h)
      · rw [interact_eq_err_not_contains hsa hne (by simpa using hcon)] at h
        simp only [Except.error.injEq, Prod.mk.injEq, Err.notImplementedError.injEq] at h
        exact h.2.symm

/-- C3 amended witness: `wait` is not allowed on a fresh seed; the failed
call carries back the unchanged plant. -/
theorem C3_invalid_action_unchanged_witness :
    interact texts0 data0 pW ACTIONS_WAIT rng0 0
      = .error (.notImplementedError ("Action " ++ ACTIONS_WAIT ++ " not recognized!"), pW) ∧
    pW = pW :=
  ⟨rfl, C3_invalid_action_unchanged_amended texts0 data0 pW pW ACTIONS_WAIT
      ("Action " ++ ACTIONS_WAIT ++ " not recognized!") rng0 0 rfl⟩

/-- C4: a successful `interact` returns `None` — the method body has no
`return` statement — never the rendered description string the docstring
and the contract promise (the description is only stored in the `look`
field). -/
theorem C4_interact_returns_none (t : Texts) (d : SpeciesData) (p : Plant) (a : String)
    (rng : Nat → Nat) (k : Nat) (s : Option String)
    (h : retOf (interact_call t d p a rng k) = some s) : s = none := by
  unfold interact_call at h
  cases hi : interact t d p a rng k with
  | error e => rw [hi] at h; simp [retOf] at h
  | ok pk =>
    rw [hi] at h
    simp only [retOf, Option.some.injEq] at h
    exact h.symm

/-- C4 witness: planting the fresh seed succeeds and the call returns
`None`. -/
theorem C4_interact_returns_none_witness :
    ((none : Option String) = none) ∧
    retOf (interact_call texts0 data0 pW ACTIONS_PLANT_SEED rng0 0) = some none :=
  ⟨C4_interact_returns_none texts0 data0 pW ACTIONS_PLANT_SEED rng0 0 none rfl, rfl⟩

end Planticity
